import Mathlib

/-!
Shallow embedding of the panda-downloader repository (two Python CLI
front-ends over the yt-dlp library): `src/panda_downlaoder_beta.py`
(namespace `Beta`) and `src/test.py` (namespace `TestPy`).

Interactive prompts are modelled by passing the stdin lines each prompt
loop consumes as an explicit list of strings; the external yt-dlp
library is modelled by oracle parameters giving the result (value or
raised exception) of each call. Python exceptions are modelled by the
`PyResult` sum; truthiness of Python strings by `pyTruthyStr`.
-/

/-- Result of a Python expression that may raise: a value or an exception
carrying its message. -/
inductive PyResult (α : Type) where
  | ok (a : α) : PyResult α
  | exn (msg : String) : PyResult α
deriving Repr, DecidableEq

/-- Message of the exception a `PyResult` carries; `none` when the
computation returned normally. -/
def PyResult.raisedMsg {α : Type} : PyResult α → Option String
  | .ok _ => none
  | .exn m => some m

/-- Substring containment, modelling the Python `sub in s` test on strings. -/
def strContains (s sub : String) : Bool :=
  s.toList.tails.any (fun t => sub.toList.isPrefixOf t)

/-- Truthiness of a Python string: non-empty strings are truthy. -/
def pyTruthyStr (s : String) : Bool :=
  !s.data.isEmpty

/-- Python whitespace characters as stripped by str.strip(). -/
def pyWhitespace (c : Char) : Bool :=
  c == ' ' || c == '\t' || c == '\n' || c == '\r' || c.toNat == 11 || c.toNat == 12

/-- Python str.strip(): removes leading and trailing whitespace. -/
def pyStrip (s : String) : String :=
  ⟨((s.data.dropWhile pyWhitespace).reverse.dropWhile pyWhitespace).reverse⟩

/-- One character of Python str.lower() on the ASCII range the scripts
compare against. -/
def pyLowerChar (c : Char) : Char :=
  if 65 ≤ c.toNat ∧ c.toNat ≤ 90 then Char.ofNat (c.toNat + 32) else c

/-- Python str.lower(). -/
def pyLower (s : String) : String :=
  ⟨s.data.map pyLowerChar⟩

/-- Python s[:-1] slicing on strings: drop the final character. -/
def pyDropLast (s : String) : String :=
  ⟨s.data.dropLast⟩

/-- The `os.path.join` of two POSIX path components. -/
def pathJoin (a b : String) : String :=
  if b.data.head? == some '/' then b
  else if a.data.isEmpty || a.data.getLast? == some '/' then a ++ b
  else a ++ "/" ++ b

/-- ASCII decimal digit test. -/
def isDigitChar (c : Char) : Bool :=
  48 ≤ c.toNat && c.toNat ≤ 57

/-- Decimal value of a nonempty all-digit character list; `none`
otherwise. -/
def parseDigits (cs : List Char) : Option Nat :=
  if cs.isEmpty then none
  else if cs.all isDigitChar then
    some (cs.foldl (fun acc c => acc * 10 + (c.toNat - 48)) 0)
  else none

/-- Python `int(s)`: optional surrounding whitespace and sign, then digits;
`none` models the ValueError raised otherwise. -/
def pyParseInt (s : String) : Option Int :=
  match (pyStrip s).data with
  | '-' :: ds => (parseDigits ds).map (fun n => -(n : Int))
  | '+' :: ds => (parseDigits ds).map (fun n => (n : Int))
  | ds => (parseDigits ds).map (fun n => (n : Int))

/-- Python list indexing `xs[i]` with negative-index wraparound; `none`
models the IndexError. -/
def pyIndex (xs : List String) (i : Int) : Option String :=
  if 0 ≤ i then xs.get? i.toNat
  else
    let j : Int := i + xs.length
    if 0 ≤ j then xs.get? j.toNat else none

namespace Beta

/-- URL validity test of `get_url`: the stripped line must contain
youtube.com or youtu.be. -/
def validYoutubeUrl (url : String) : Bool :=
  strContains url "youtube.com" || strContains url "youtu.be"

/-- The `get_url` prompt loop over the list of stdin lines it consumes:
strips each line and returns the first one containing a recognized host
substring; `none` models stdin exhausting while the loop re-prompts. -/
def get_url : List String → Option String
  | [] => none
  | line :: rest =>
    let url := pyStrip line
    if validYoutubeUrl url then some url else get_url rest

/-- The `is_playlist` function: it returns the string literal n before its
prompt loop is ever reached (the annotated bool is never produced). -/
def is_playlist : String := "n"

/-- Lookup in the qualities dict of `select_quality`, keys 1 to 5 to the
quality value of the entry; `none` models a key not in the dict. -/
def qualityOfChoice (choice : String) : Option String :=
  if choice == "1" then some "best"
  else if choice == "2" then some "1080p"
  else if choice == "3" then some "720p"
  else if choice == "4" then some "480p"
  else if choice == "5" then some "worst"
  else none

/-- The `select_quality` prompt loop over the stdin lines it consumes:
returns the value of the first choice that is a key of the menu; `none`
models stdin exhausting while the loop re-prompts. -/
def select_quality : List String → Option String
  | [] => none
  | choice :: rest =>
    match qualityOfChoice choice with
    | some q => some q
    | none => select_quality rest

/-- Lookup in the formats dict of `select_format`, keys 1 to 3 to the
container value of the entry. -/
def formatOfChoice (choice : String) : Option String :=
  if choice == "1" then some "mp4"
  else if choice == "2" then some "mkv"
  else if choice == "3" then some "webm"
  else none

/-- The `select_format` prompt loop over the stdin lines it consumes. -/
def select_format : List String → Option String
  | [] => none
  | choice :: rest =>
    match formatOfChoice choice with
    | some f => some f
    | none => select_format rest

/-- The `get_output_path` prompt: strips the line; empty input yields the
default downloads directory. -/
def get_output_path (line : String) : String :=
  let path := pyStrip line
  if pyTruthyStr path then path else "downloads"

/-- The `create_format_selector` mapping from quality to yt-dlp format
selector string. -/
def create_format_selector (quality : String) : String :=
  if quality == "best" then "bestvideo+bestaudio/best"
  else if quality == "worst" then "worstvideo+worstaudio/worst"
  else if quality == "1080p" || quality == "720p" || quality == "480p" then
    let height := pyDropLast quality
    "bestvideo[height<=" ++ height ++ "]+bestaudio/best[height<=" ++ height ++ "]"
  else "bestvideo+bestaudio/best"

/-- The download request assembled by `main` and passed to
`download_content`. The playlist flag field holds the Python value the
only caller passes, namely the string returned by `is_playlist`; the
function body tests its truthiness. -/
structure Request where
  url : String
  output_path : String
  quality : String
  format : String
  is_playlist : String
deriving Repr, DecidableEq

/-- The yt-dlp options dictionary built by `download_content`. Optional
fields model keys only present after the playlist `update`. -/
structure YdlOpts where
  format : String
  merge_output_format : String
  outtmpl : String
  ignoreerrors : Bool
  continuedl : Bool
  quiet : Bool
  no_warnings : Bool
  socket_timeout : Nat
  retries : Nat
  extract_flat : Option String
  playlistrandom : Option Bool
  playliststart : Option Nat
  playlistend : Option (Option Nat)
deriving Repr, DecidableEq

/-- The playlist output template of `download_content`:
os.path.join(output_path, playlist_title, playlist_index-title.ext). -/
def playlistOuttmpl (output_path : String) : String :=
  pathJoin (pathJoin output_path "%(playlist_title)s") "%(playlist_index)s-%(title)s.%(ext)s"

/-- The single-video output template of `download_content`. -/
def singleOuttmpl (output_path : String) : String :=
  pathJoin output_path "%(title)s.%(ext)s"

/-- The `ydl_opts` dictionary of `download_content`, including the
playlist-only keys added by the conditional `update`. -/
def download_opts (r : Request) : YdlOpts :=
  let base : YdlOpts :=
    { format := create_format_selector r.quality
      merge_output_format := r.format
      outtmpl :=
        if pyTruthyStr r.is_playlist then playlistOuttmpl r.output_path
        else singleOuttmpl r.output_path
      ignoreerrors := true
      continuedl := true
      quiet := false
      no_warnings := false
      socket_timeout := 10
      retries := 3
      extract_flat := none
      playlistrandom := none
      playliststart := none
      playlistend := none }
  if pyTruthyStr r.is_playlist then
    { base with
      extract_flat := some "in_playlist"
      playlistrandom := some false
      playliststart := some 1
      playlistend := some none }
  else base

/-- How a `download_content` run ends. `blockedAtPrompt` models the retry
prompt waiting on a stdin script that supplied no further line. -/
inductive DCOutcome where
  | completed
  | errorsReported (code : Int)
  | abandonedAfterError
  | blockedAtPrompt
deriving Repr, DecidableEq

/-- Observable effects of one `download_content` call: the request used by
each `ydl.download` attempt, the printed lines, the mkdir effects
(path, parents flag, exist-ok flag), and the ending. -/
structure DCRun where
  attempts : List Request
  prints : List String
  mkdirCalls : List (String × Bool × Bool)
  outcome : DCOutcome
deriving Repr, DecidableEq

/-- The `download_content` orchestrator. `oracle` gives the result of the
n-th `ydl.download([url])` call (error code, or raised exception message);
`answers` is the list of stdin lines the retry prompt consumes. The
`PyResult` wrapper carries an exception escaping the function; the
except-Exception handler catches every modelled exception, retries on a
y answer by re-invoking the function with the same request, and otherwise
just returns. -/
def download_content (r : Request) (oracle : Nat → PyResult Int) :
    Nat → List String → PyResult DCRun
  | attempt, answers =>
    let mk := (r.output_path, true, true)
    match oracle attempt with
    | .ok code =>
      if code == 0 then
        .ok ⟨[r], ["Download completed successfully!"], [mk], .completed⟩
      else
        .ok ⟨[r],
             ["Some errors occurred during download. Error code: " ++ toString code],
             [mk], .errorsReported code⟩
    | .exn msg =>
      let eprint := "An error occurred: " ++ msg
      match answers with
      | [] => .ok ⟨[r], [eprint], [mk], .blockedAtPrompt⟩
      | ans :: rest =>
        if pyLower ans == "y" then
          match download_content r oracle (attempt + 1) rest with
          | .ok res => .ok ⟨r :: res.attempts, eprint :: res.prints,
                            mk :: res.mkdirCalls, res.outcome⟩
          | .exn m => .exn m
        else .ok ⟨[r], [eprint], [mk], .abandonedAfterError⟩

/-- Printed lines of a `download_content` result, empty if an exception
escaped. -/
def dcPrints : PyResult DCRun → List String
  | .ok res => res.prints
  | .exn _ => []

/-- Attempted requests of a `download_content` result, empty if an
exception escaped. -/
def dcAttempts : PyResult DCRun → List Request
  | .ok res => res.attempts
  | .exn _ => []

/-- The dictionary returned by `ydl.extract_info`. The falsy case of
`if info:` in `main` is modelled by `Option Info` with none for None. -/
structure Info where
  title : Option String
  entries : Option (List Unit)
deriving Repr, DecidableEq

/-- Result of one `ydl.extract_info(url, download=False)` call: a value,
a raised `yt_dlp.utils.DownloadError`, or any other raised exception. -/
inductive ExtractRes where
  | ok (info : Option Info)
  | downloadError (msg : String)
  | otherError (msg : String)
deriving Repr, DecidableEq

/-- How a `get_video_info` run ends: an info value returned to `main`, a
`sys.exit` with the given status, or the retry prompt waiting on an
exhausted stdin script. -/
inductive GviOutcome where
  | fetched (info : Option Info)
  | exited (code : Nat)
  | blockedAtPrompt
deriving Repr, DecidableEq

/-- Observable effects of one `get_video_info` call: the url of each
`extract_info` attempt, the printed error lines, and the ending. -/
structure GviRun where
  attempts : List String
  prints : List String
  outcome : GviOutcome
deriving Repr, DecidableEq

/-- The `get_video_info` fetcher. `oracle` gives the result of the n-th
`extract_info` call; `answers` is the list of stdin lines the retry
prompt consumes. On DownloadError it prints and either recurses on the
same url (answer y) or exits with status 1; on any other exception it
prints and exits with status 1. -/
def get_video_info (url : String) (oracle : Nat → ExtractRes) :
    Nat → List String → GviRun
  | attempt, answers =>
    match oracle attempt with
    | .ok i => ⟨[url], [], .fetched i⟩
    | .downloadError msg =>
      let eprint := "Error: Could not fetch video information. " ++ msg
      match answers with
      | [] => ⟨[url], [eprint], .blockedAtPrompt⟩
      | ans :: rest =>
        if pyLower ans == "y" then
          let res := get_video_info url oracle (attempt + 1) rest
          ⟨url :: res.attempts, eprint :: res.prints, res.outcome⟩
        else ⟨[url], [eprint], .exited 1⟩
    | .otherError msg =>
      ⟨[url], ["An unexpected error occurred: " ++ msg], .exited 1⟩

/-- Stdin script and library oracles for one iteration of the `main` loop
of the beta script: the lines each prompt loop consumes, the results of
the extract-info and download calls, and the confirmation answers. -/
structure IterScript where
  urlInputs : List String
  extractOracle : Nat → ExtractRes
  gviAnswers : List String
  qualityInputs : List String
  formatInputs : List String
  outputInput : String
  confirmAnswer : String
  dlOracle : Nat → PyResult Int
  dlAnswers : List String
  anotherAnswer : String

/-- How the inner `if info:` block of a `main` iteration ends. -/
inductive InnerEnd where
  | reachedAnotherPrompt
  | blocked
  | raised (msg : String)
deriving Repr, DecidableEq

/-- Observable effects of the inner block: printed lines, the
`download_content` run and the request passed to it (when reached). -/
structure InnerRun where
  prints : List String
  dlRun : Option DCRun
  request : Option Request
  ending : InnerEnd
deriving Repr, DecidableEq

/-- The body of the `if info:` block of `main` after the info prints:
quality, format and output-path prompts, the summary prints, and the
confirmed call to `download_content`. -/
def inner_block (s : IterScript) (url : String) : InnerRun :=
  match select_quality s.qualityInputs with
  | none => ⟨[], none, none, .blocked⟩
  | some quality =>
    match select_format s.formatInputs with
    | none => ⟨[], none, none, .blocked⟩
    | some fmt =>
      let output_path := get_output_path s.outputInput
      let summary :=
        ["Download Summary:",
         "URL: " ++ url,
         "Type: " ++ (if pyTruthyStr is_playlist then "Playlist" else "Single Video"),
         "Quality: " ++ quality,
         "Format: " ++ fmt,
         "Output: " ++ output_path]
      let req : Request := ⟨url, output_path, quality, fmt, is_playlist⟩
      if pyLower s.confirmAnswer == "y" then
        match download_content req s.dlOracle 0 s.dlAnswers with
        | .ok res => ⟨summary ++ res.prints, some res, some req, .reachedAnotherPrompt⟩
        | .exn m => ⟨summary, none, some req, .raised m⟩
      else ⟨summary, none, none, .reachedAnotherPrompt⟩

/-- How one `main` iteration ends: fall through to the next iteration,
break out of the loop, `sys.exit`, block on an exhausted stdin script, or
an uncaught exception. -/
inductive IterEnd where
  | continueLoop
  | breakLoop
  | exitedCode (n : Nat)
  | blocked
  | raised (msg : String)
deriving Repr, DecidableEq

/-- Observable effects of one `main` iteration. -/
structure IterRun where
  prints : List String
  dlRun : Option DCRun
  request : Option Request
  ending : IterEnd
deriving Repr, DecidableEq

/-- One iteration of the `while True` loop of `main`: url prompt, the
constant `is_playlist` flag, `get_video_info`, the `if info:` block, and
the download-another prompt deciding `break` versus the next iteration. -/
def runIter (s : IterScript) : IterRun :=
  match get_url s.urlInputs with
  | none => ⟨[], none, none, .blocked⟩
  | some url =>
    let gvi := get_video_info url s.extractOracle 0 s.gviAnswers
    match gvi.outcome with
    | .exited n => ⟨gvi.prints, none, none, .exitedCode n⟩
    | .blockedAtPrompt => ⟨gvi.prints, none, none, .blocked⟩
    | .fetched none =>
      ⟨gvi.prints, none, none,
       if pyLower s.anotherAnswer == "y" then .continueLoop else .breakLoop⟩
    | .fetched (some i) =>
      let infoPrints :=
        if pyTruthyStr is_playlist then
          ["Playlist: " ++ i.title.getD "Unknown",
           "Number of videos: " ++ toString (i.entries.getD []).length]
        else ["Video: " ++ i.title.getD "Unknown"]
      let inner := inner_block s url
      match inner.ending with
      | .blocked =>
        ⟨gvi.prints ++ infoPrints ++ inner.prints, inner.dlRun, inner.request, .blocked⟩
      | .raised m =>
        ⟨gvi.prints ++ infoPrints ++ inner.prints, inner.dlRun, inner.request, .raised m⟩
      | .reachedAnotherPrompt =>
        ⟨gvi.prints ++ infoPrints ++ inner.prints, inner.dlRun, inner.request,
         if pyLower s.anotherAnswer == "y" then .continueLoop else .breakLoop⟩

end Beta

/-- How a whole `main` run ends, for either front-end: normal return after
breaking the loop, `sys.exit` with a status, blocking on an exhausted
stdin script, or an uncaught exception. -/
inductive LoopEnd where
  | finished
  | exitedCode (n : Nat)
  | blocked
  | raised (msg : String)
deriving Repr, DecidableEq

/-- Result of a whole `main` run: how many iterations completed through
the download-another prompt, and how the run ended. -/
structure LoopRun where
  iterations : Nat
  ending : LoopEnd
deriving Repr, DecidableEq

namespace Beta

/-- The `main` loop of the beta script over the per-iteration scripts:
runs iterations until one answers the download-another prompt with
anything other than y, or exits, blocks, or raises. -/
def main : List IterScript → LoopRun
  | [] => ⟨0, .blocked⟩
  | s :: rest =>
    let it := runIter s
    match it.ending with
    | .breakLoop => ⟨1, .finished⟩
    | .continueLoop =>
      let m := main rest
      ⟨m.iterations + 1, m.ending⟩
    | .exitedCode n => ⟨0, .exitedCode n⟩
    | .blocked => ⟨0, .blocked⟩
    | .raised msg => ⟨0, .raised msg⟩

end Beta

namespace TestPy

/-- The two members of the Format enum. -/
inductive Format where
  | video
  | audio
deriving Repr, DecidableEq

/-- The DownloadOptions dataclass. -/
structure DownloadOptions where
  url : String
  format_type : Format
  quality : String
  output_path : String
deriving Repr, DecidableEq

namespace YouTubeDownloader

/-- The base output template set in the constructor. -/
def base_output_template : String := "%(title)s.%(ext)s"

/-- One character of the re.sub in `_create_output_path`: characters
invalid in folder names become underscores. -/
def sanitizeChar (c : Char) : Char :=
  if c ∈ ['<', '>', ':', '"', '/', '\\', '|', '?', '*'] then '_' else c

/-- The re.sub of `_create_output_path` applied to the playlist title. -/
def sanitizeTitle (s : String) : String := ⟨s.data.map sanitizeChar⟩

/-- The dictionary returned by `_get_info`; none models the None returned
after a caught exception. -/
structure TInfo where
  title : Option String
deriving Repr, DecidableEq

/-- Observable effects of `_create_output_path`: the returned path, the
os.makedirs effects (path, exist-ok flag), and printed error lines. -/
structure CreatePathRun where
  path : String
  makedirsCalls : List (String × Bool)
  prints : List String
deriving Repr, DecidableEq

/-- The `_create_output_path` method. `info` is the result of the inner
`_get_info` call; `mkdirExn` is the exception message raised by
os.makedirs when it fails, in which case the handler prints and falls
back to the current working directory. -/
def create_output_path (cwd : String) (info : Option TInfo) (is_pl : Bool)
    (mkdirExn : Option String) : CreatePathRun :=
  let output_path :=
    if is_pl then
      match info with
      | some i => pathJoin cwd (sanitizeTitle (i.title.getD "playlist"))
      | none => cwd
    else cwd
  match mkdirExn with
  | none => ⟨output_path, [(output_path, true)], []⟩
  | some m => ⟨cwd, [(output_path, true)], ["Error creating output directory: " ++ m]⟩

/-- The `_get_format_string` method: the VIDEO branch splices
quality[:-1] into the height bounds; the AUDIO branch is fixed. -/
def get_format_string (quality : String) (format_type : Format) : String :=
  match format_type with
  | .video =>
    "bestvideo[height<=" ++ pyDropLast quality ++ "]+bestaudio/best[height<="
      ++ pyDropLast quality ++ "]/best"
  | .audio => "bestaudio/best"

/-- One entry of the postprocessors list. -/
structure PostProcessor where
  key : String
  preferredcodec : String
  preferredquality : String
deriving Repr, DecidableEq

/-- The yt-dlp options dictionary built by `_get_download_options`. -/
structure TYdlOpts where
  format : String
  outtmpl : String
  postprocessors : Option (List PostProcessor)
deriving Repr, DecidableEq

/-- The `_get_download_options` method: format string, output template,
and for AUDIO the FFmpegExtractAudio post-processor whose preferred
quality is quality[:-1]. -/
def get_download_options (options : DownloadOptions) : TYdlOpts :=
  let format_string := get_format_string options.quality options.format_type
  let base : TYdlOpts :=
    ⟨format_string, pathJoin options.output_path base_output_template, none⟩
  if options.format_type == Format.audio then
    { base with
      postprocessors := some [⟨"FFmpegExtractAudio", "mp3", pyDropLast options.quality⟩] }
  else base

/-- Observable effects of the `download` method: printed lines and the
returned value (or an escaping exception, which never occurs). -/
structure DLRun where
  prints : List String
  result : PyResult Bool
deriving Repr, DecidableEq

/-- The `download` method. `oracle` is the result of the
`ydl.download([options.url])` call; the except-Exception handler prints
the message and returns False instead of re-raising. -/
def download (options : DownloadOptions) (oracle : PyResult Unit) : DLRun :=
  match oracle with
  | .ok _ => ⟨["Starting download..."], .ok true⟩
  | .exn m => ⟨["Starting download...", "Error during download: " ++ m], .ok false⟩

end YouTubeDownloader

namespace UserInterface

/-- The quality-index prompt of `get_download_options` on a chosen
quality list: empty list skips the prompt and uses best; otherwise
int(...) - 1 indexes the list Python-style, and a ValueError or
IndexError falls back to the first listed quality. -/
def select_quality_from (qs : List String) (line : String) : String :=
  if qs.isEmpty then "best"
  else
    match pyParseInt line with
    | none => qs.headD "best"
    | some n =>
      match pyIndex qs (n - 1) with
      | some q => q
      | none => qs.headD "best"

/-- Stdin script and library oracles for one `get_download_options`
call: the url line, what `get_available_qualities` returns, the format
and quality lines, and the environment of `_create_output_path`. -/
structure UIScript where
  urlInput : String
  availVideo : List String
  availAudio : List String
  formatChoice : String
  qualityInput : String
  cwd : String
  infoForPath : Option YouTubeDownloader.TInfo
  mkdirExn : Option String

/-- The `get_download_options` method of UserInterface: reads the url
line unvalidated, picks the format from the 1/2 choice, selects the
quality, and builds the output path (playlist when the lowercased url
contains the word playlist). -/
def get_download_options (s : UIScript) : DownloadOptions × List String :=
  let url := s.urlInput
  let format_type := if s.formatChoice == "1" then Format.video else Format.audio
  let qs := if format_type == Format.video then s.availVideo else s.availAudio
  let quality := select_quality_from qs s.qualityInput
  let is_pl := strContains (pyLower url) "playlist"
  let cp := YouTubeDownloader.create_output_path s.cwd s.infoForPath is_pl s.mkdirExn
  (⟨url, format_type, quality, cp.path⟩, cp.prints)

end UserInterface

/-- Stdin script and oracles for one iteration of the test front-end's
`main` loop. -/
structure IterScript where
  ui : UserInterface.UIScript
  dlOracle : PyResult Unit
  anotherAnswer : String

/-- The `main` loop of test.py over the per-iteration scripts: each
iteration collects options, downloads (the result is ignored), and the
download-another prompt decides `break` versus the next iteration. -/
def main : List IterScript → LoopRun
  | [] => ⟨0, .blocked⟩
  | s :: rest =>
    let options := (UserInterface.get_download_options s.ui).1
    let _dl := YouTubeDownloader.download options s.dlOracle
    if pyLower s.anotherAnswer == "y" then
      let m := main rest
      ⟨m.iterations + 1, m.ending⟩
    else ⟨1, .finished⟩

end TestPy

/-- Concrete iteration script of the beta front-end: fetch succeeds, the
user picks menu entries 2 and 1, confirms, the download succeeds, and
the download-another answer is n. -/
def Beta.sampleRunSingle : Beta.IterScript :=
  ⟨["https://youtube.com/watch?v=a"], fun _ => .ok (some ⟨some "T", some []⟩),
   [], ["2"], ["1"], "", "y", fun _ => .ok 0, [], "n"⟩

/-- Concrete iteration script of the beta front-end whose download raises
and whose retry prompt is answered n. -/
def Beta.sampleRunDeclinedRetry : Beta.IterScript :=
  ⟨["https://youtube.com/watch?v=a"], fun _ => .ok (some ⟨some "T", some []⟩),
   [], ["1"], ["1"], "", "y", fun _ => .exn "network down", ["n"], "n"⟩

/-- Concrete iteration script of the beta front-end exercising the info
prints of a successful fetch. -/
def Beta.sampleRunPlaylist : Beta.IterScript :=
  ⟨["https://youtube.com/watch?v=b"], fun _ => .ok (some ⟨some "T", some []⟩),
   [], ["1"], ["1"], "", "y", fun _ => .ok 0, [], "n"⟩

/-- Concrete iteration script of the test front-end with one download and
a declining download-another answer. -/
def TestPy.sampleRun : TestPy.IterScript :=
  ⟨⟨"https://youtube.com/watch?v=a", ["1080p"], ["128k"], "1", "1",
    "/home/user", none, none⟩, .ok (), "n"⟩

namespace Beta

/-- Unfolding of `download_content` when the download returns error code
zero. -/
theorem dc_eq_completed (r : Request) (oracle : Nat → PyResult Int)
    (attempt : Nat) (answers : List String)
    (h : oracle attempt = .ok 0) :
    download_content r oracle attempt answers =
      .ok ⟨[r], ["Download completed successfully!"],
           [(r.output_path, true, true)], .completed⟩ := by
  cases answers <;> simp [download_content, h]

/-- Unfolding of `download_content` when the download returns a nonzero
error code. -/
theorem dc_eq_errors (r : Request) (oracle : Nat → PyResult Int)
    (attempt : Nat) (answers : List String) (code : Int)
    (h : oracle attempt = .ok code) (hc : (code == 0) = false) :
    download_content r oracle attempt answers =
      .ok ⟨[r], ["Some errors occurred during download. Error code: " ++ toString code],
           [(r.output_path, true, true)], .errorsReported code⟩ := by
  cases answers <;> simp [download_content, h, hc]

/-- Unfolding of `download_content` when the download raises and the
stdin script supplies no retry answer. -/
theorem dc_eq_blocked (r : Request) (oracle : Nat → PyResult Int)
    (attempt : Nat) (msg : String)
    (h : oracle attempt = .exn msg) :
    download_content r oracle attempt [] =
      .ok ⟨[r], ["An error occurred: " ++ msg],
           [(r.output_path, true, true)], .blockedAtPrompt⟩ := by
  simp [download_content, h]

/-- Unfolding of `download_content` when the download raises and the user
confirms the retry. -/
theorem dc_eq_retry (r : Request) (oracle : Nat → PyResult Int)
    (attempt : Nat) (msg : String) (ans : String) (rest : List String)
    (h : oracle attempt = .exn msg) (hy : (pyLower ans == "y") = true) :
    download_content r oracle attempt (ans :: rest) =
      match download_content r oracle (attempt + 1) rest with
      | .ok res => .ok ⟨r :: res.attempts, ("An error occurred: " ++ msg) :: res.prints,
                        (r.output_path, true, true) :: res.mkdirCalls, res.outcome⟩
      | .exn m => .exn m := by
  conv_lhs => rw [download_content]
  rw [h]
  simp [hy]

/-- Unfolding of `download_content` when the download raises and the user
declines the retry. -/
theorem dc_eq_abandoned (r : Request) (oracle : Nat → PyResult Int)
    (attempt : Nat) (msg : String) (ans : String) (rest : List String)
    (h : oracle attempt = .exn msg) (hy : (pyLower ans == "y") = false) :
    download_content r oracle attempt (ans :: rest) =
      .ok ⟨[r], ["An error occurred: " ++ msg],
           [(r.output_path, true, true)], .abandonedAfterError⟩ := by
  simp [download_content, h, hy]

/-- The except-Exception handler of `download_content` never lets an
exception escape. -/
theorem download_content_no_raise (r : Request) (oracle : Nat → PyResult Int) :
    ∀ (answers : List String) (attempt : Nat),
      (download_content r oracle attempt answers).raisedMsg = none := by
  intro answers
  induction answers with
  | nil =>
    intro attempt
    cases h : oracle attempt with
    | ok code =>
      by_cases hc : (code == 0) = true
      · rw [show code = 0 from by simpa using hc] at h
        rw [dc_eq_completed r oracle attempt [] h]
        rfl
      · rw [dc_eq_errors r oracle attempt [] code h (by simpa using hc)]
        rfl
    | exn msg =>
      rw [dc_eq_blocked r oracle attempt msg h]
      rfl
  | cons ans rest ih =>
    intro attempt
    cases h : oracle attempt with
    | ok code =>
      by_cases hc : (code == 0) = true
      · rw [show code = 0 from by simpa using hc] at h
        rw [dc_eq_completed r oracle attempt (ans :: rest) h]
        rfl
      · rw [dc_eq_errors r oracle attempt (ans :: rest) code h (by simpa using hc)]
        rfl
    | exn msg =>
      by_cases hy : (pyLower ans == "y") = true
      · rw [dc_eq_retry r oracle attempt msg ans rest h hy]
        have hrec := ih (attempt + 1)
        cases hres : download_content r oracle (attempt + 1) rest with
        | ok res => rfl
        | exn m => rw [hres] at hrec; simp [PyResult.raisedMsg] at hrec
      · rw [dc_eq_abandoned r oracle attempt msg ans rest h (by simpa using hy)]
        rfl

/-- A `PyResult` carrying no exception message is a normal return. -/
theorem raisedMsg_none_iff {α : Type} (x : PyResult α) :
    x.raisedMsg = none ↔ ∃ a, x = .ok a := by
  cases x <;> simp [PyResult.raisedMsg]

/-- Every `download_content` run returns a value to the caller. -/
theorem download_content_ok (r : Request) (oracle : Nat → PyResult Int)
    (answers : List String) (attempt : Nat) :
    ∃ res, download_content r oracle attempt answers = .ok res :=
  (raisedMsg_none_iff _).mp (download_content_no_raise r oracle answers attempt)

end Beta

namespace Beta

/-- Unfolding of `get_video_info` when extraction succeeds. -/
theorem gvi_eq_fetched (url : String) (oracle : Nat → ExtractRes)
    (attempt : Nat) (answers : List String) (i : Option Info)
    (h : oracle attempt = .ok i) :
    get_video_info url oracle attempt answers = ⟨[url], [], .fetched i⟩ := by
  cases answers <;> simp [get_video_info, h]

/-- Unfolding of `get_video_info` on DownloadError with no scripted retry
answer. -/
theorem gvi_eq_blocked (url : String) (oracle : Nat → ExtractRes)
    (attempt : Nat) (msg : String)
    (h : oracle attempt = .downloadError msg) :
    get_video_info url oracle attempt [] =
      ⟨[url], ["Error: Could not fetch video information. " ++ msg], .blockedAtPrompt⟩ := by
  simp [get_video_info, h]

/-- Unfolding of `get_video_info` on DownloadError with a confirming
retry answer. -/
theorem gvi_eq_retry (url : String) (oracle : Nat → ExtractRes)
    (attempt : Nat) (msg : String) (ans : String) (rest : List String)
    (h : oracle attempt = .downloadError msg) (hy : (pyLower ans == "y") = true) :
    get_video_info url oracle attempt (ans :: rest) =
      ⟨url :: (get_video_info url oracle (attempt + 1) rest).attempts,
       ("Error: Could not fetch video information. " ++ msg) ::
         (get_video_info url oracle (attempt + 1) rest).prints,
       (get_video_info url oracle (attempt + 1) rest).outcome⟩ := by
  conv_lhs => rw [get_video_info]
  rw [h]
  simp [hy]

/-- Unfolding of `get_video_info` on DownloadError with a declining retry
answer: the process exits with status 1. -/
theorem gvi_eq_exit (url : String) (oracle : Nat → ExtractRes)
    (attempt : Nat) (msg : String) (ans : String) (rest : List String)
    (h : oracle attempt = .downloadError msg) (hy : (pyLower ans == "y") = false) :
    get_video_info url oracle attempt (ans :: rest) =
      ⟨[url], ["Error: Could not fetch video information. " ++ msg], .exited 1⟩ := by
  conv_lhs => rw [get_video_info]
  rw [h]
  simp [hy]

/-- Unfolding of `get_video_info` on an unexpected exception: the process
exits with status 1. -/
theorem gvi_eq_unexpected (url : String) (oracle : Nat → ExtractRes)
    (attempt : Nat) (answers : List String) (msg : String)
    (h : oracle attempt = .otherError msg) :
    get_video_info url oracle attempt answers =
      ⟨[url], ["An unexpected error occurred: " ++ msg], .exited 1⟩ := by
  cases answers <;> simp [get_video_info, h]

/-- Every extraction attempt of a `get_video_info` run uses the original
url, and at least one attempt is made. -/
theorem gvi_attempts_spec (url : String) (oracle : Nat → ExtractRes) :
    ∀ (answers : List String) (attempt : Nat),
      (get_video_info url oracle attempt answers).attempts.all (fun a => a == url) = true ∧
      1 ≤ (get_video_info url oracle attempt answers).attempts.length := by
  intro answers
  induction answers with
  | nil =>
    intro attempt
    cases h : oracle attempt with
    | ok i => rw [gvi_eq_fetched url oracle attempt [] i h]; simp
    | downloadError msg => rw [gvi_eq_blocked url oracle attempt msg h]; simp
    | otherError msg => rw [gvi_eq_unexpected url oracle attempt [] msg h]; simp
  | cons ans rest ih =>
    intro attempt
    cases h : oracle attempt with
    | ok i => rw [gvi_eq_fetched url oracle attempt (ans :: rest) i h]; simp
    | downloadError msg =>
      by_cases hy : (pyLower ans == "y") = true
      · rw [gvi_eq_retry url oracle attempt msg ans rest h hy]
        obtain ⟨h1, h2⟩ := ih (attempt + 1)
        refine ⟨?_, ?_⟩
        · simp [h1]
        · simp
      · rw [gvi_eq_exit url oracle attempt msg ans rest h (by simpa using hy)]
        simp
    | otherError msg => rw [gvi_eq_unexpected url oracle attempt (ans :: rest) msg h]; simp

/-- Every download attempt of a `download_content` run uses the original
request, and at least one attempt is made. -/
theorem dc_attempts_spec (r : Request) (oracle : Nat → PyResult Int) :
    ∀ (answers : List String) (attempt : Nat) (res : DCRun),
      download_content r oracle attempt answers = .ok res →
      res.attempts.all (fun a => a == r) = true ∧ 1 ≤ res.attempts.length := by
  intro answers
  induction answers with
  | nil =>
    intro attempt res h
    cases ho : oracle attempt with
    | ok code =>
      by_cases hc : (code == 0) = true
      · rw [show code = 0 from by simpa using hc] at ho
        rw [dc_eq_completed r oracle attempt [] ho] at h
        injection h with h
        subst h
        simp
      · rw [dc_eq_errors r oracle attempt [] code ho (by simpa using hc)] at h
        injection h with h
        subst h
        simp
    | exn msg =>
      rw [dc_eq_blocked r oracle attempt msg ho] at h
      injection h with h
      subst h
      simp
  | cons ans rest ih =>
    intro attempt res h
    cases ho : oracle attempt with
    | ok code =>
      by_cases hc : (code == 0) = true
      · rw [show code = 0 from by simpa using hc] at ho
        rw [dc_eq_completed r oracle attempt (ans :: rest) ho] at h
        injection h with h
        subst h
        simp
      · rw [dc_eq_errors r oracle attempt (ans :: rest) code ho (by simpa using hc)] at h
        injection h with h
        subst h
        simp
    | exn msg =>
      by_cases hy : (pyLower ans == "y") = true
      · rw [dc_eq_retry r oracle attempt msg ans rest ho hy] at h
        cases hrec : download_content r oracle (attempt + 1) rest with
        | ok res2 =>
          rw [hrec] at h
          injection h with h
          subst h
          obtain ⟨h1, h2⟩ := ih (attempt + 1) res2 hrec
          refine ⟨?_, ?_⟩
          · simp [h1]
          · simp
        | exn m =>
          rw [hrec] at h
          simp at h
      · rw [dc_eq_abandoned r oracle attempt msg ans rest ho (by simpa using hy)] at h
        injection h with h
        subst h
        simp

/-- When the download raises, the handler of `download_content` prints
the error line. -/
theorem dc_exn_prints (r : Request) (oracle : Nat → PyResult Int)
    (answers : List String) (attempt : Nat) (msg : String)
    (h : oracle attempt = .exn msg) :
    ("An error occurred: " ++ msg) ∈ dcPrints (download_content r oracle attempt answers) := by
  cases answers with
  | nil => rw [dc_eq_blocked r oracle attempt msg h]; simp [dcPrints]
  | cons ans rest =>
    by_cases hy : (pyLower ans == "y") = true
    · rw [dc_eq_retry r oracle attempt msg ans rest h hy]
      obtain ⟨res, hres⟩ := download_content_ok r oracle rest (attempt + 1)
      rw [hres]
      simp [dcPrints]
    · rw [dc_eq_abandoned r oracle attempt msg ans rest h (by simpa using hy)]
      simp [dcPrints]

/-- Every `download_content` invocation records the mkdir of the output
path with parents and exist-ok set. -/
theorem dc_mkdir (r : Request) (oracle : Nat → PyResult Int)
    (answers : List String) (attempt : Nat) (res : DCRun)
    (h : download_content r oracle attempt answers = .ok res) :
    (r.output_path, true, true) ∈ res.mkdirCalls := by
  cases ho : oracle attempt with
  | ok code =>
    by_cases hc : (code == 0) = true
    · rw [show code = 0 from by simpa using hc] at ho
      rw [dc_eq_completed r oracle attempt answers ho] at h
      injection h with h
      subst h
      simp
    · rw [dc_eq_errors r oracle attempt answers code ho (by simpa using hc)] at h
      injection h with h
      subst h
      simp
  | exn msg =>
    cases answers with
    | nil =>
      rw [dc_eq_blocked r oracle attempt msg ho] at h
      injection h with h
      subst h
      simp
    | cons ans rest =>
      by_cases hy : (pyLower ans == "y") = true
      · rw [dc_eq_retry r oracle attempt msg ans rest ho hy] at h
        cases hrec : download_content r oracle (attempt + 1) rest with
        | ok res2 =>
          rw [hrec] at h
          injection h with h
          subst h
          simp
        | exn m =>
          rw [hrec] at h
          simp at h
      · rw [dc_eq_abandoned r oracle attempt msg ans rest ho (by simpa using hy)] at h
        injection h with h
        subst h
        simp

end Beta

namespace Beta

/-- Every url returned by the `get_url` prompt loop passes the
host-substring validation. -/
theorem get_url_valid : ∀ (inputs : List String) (u : String),
    get_url inputs = some u → validYoutubeUrl u = true := by
  intro inputs
  induction inputs with
  | nil => intro u h; simp [get_url] at h
  | cons line rest ih =>
    intro u h
    by_cases hv : validYoutubeUrl (pyStrip line) = true
    · simp only [get_url, hv, if_true] at h
      obtain rfl := Option.some.inj h
      exact hv
    · simp only [get_url, hv, if_false] at h
      exact ih u h

/-- Every value in the qualities dict of `select_quality` is one of the
five menu values. -/
theorem qualityOfChoice_mem (c q : String) (h : qualityOfChoice c = some q) :
    q = "best" ∨ q = "1080p" ∨ q = "720p" ∨ q = "480p" ∨ q = "worst" := by
  simp only [qualityOfChoice] at h
  split_ifs at h <;> simp_all

/-- Every quality returned by the `select_quality` prompt loop is one of
the five menu values. -/
theorem select_quality_mem : ∀ (inputs : List String) (q : String),
    select_quality inputs = some q →
    q = "best" ∨ q = "1080p" ∨ q = "720p" ∨ q = "480p" ∨ q = "worst" := by
  intro inputs
  induction inputs with
  | nil => intro q h; simp [select_quality] at h
  | cons c rest ih =>
    intro q h
    simp only [select_quality] at h
    cases hc : qualityOfChoice c with
    | some q0 =>
      rw [hc] at h
      simp only [] at h
      obtain rfl := Option.some.inj h
      exact qualityOfChoice_mem c q0 hc
    | none =>
      rw [hc] at h
      exact ih q h

/-- An input that is not a key of the qualities dict makes
`select_quality` re-prompt on the remaining stdin lines. -/
theorem select_quality_reprompts (choice : String) (rest : List String)
    (h : qualityOfChoice choice = none) :
    select_quality (choice :: rest) = select_quality rest := by
  simp [select_quality, h]

end Beta

namespace Beta

/-- The constant playlist flag of the beta script is a truthy Python
string. -/
theorem is_playlist_truthy : pyTruthyStr is_playlist = true := by decide

/-- When the quality and format prompts succeed, the inner block of a
`main` iteration always reaches the download-another prompt. -/
theorem inner_block_reaches (s : IterScript) (u q f : String)
    (hq : select_quality s.qualityInputs = some q)
    (hf : select_format s.formatInputs = some f) :
    (inner_block s u).ending = .reachedAnotherPrompt := by
  simp only [inner_block, hq, hf]
  by_cases hc : (pyLower s.confirmAnswer == "y") = true
  · simp only [hc, if_true]
    obtain ⟨res, hres⟩ :=
      download_content_ok ⟨u, get_output_path s.outputInput, q, f, is_playlist⟩
        s.dlOracle s.dlAnswers 0
    rw [hres]
  · simp [hc]

/-- When every prompt of the first iteration succeeds and the
download-another answer is not y, the iteration ends with `break`. -/
theorem runIter_break (s : IterScript) (u : String) (i : Info) (q f : String)
    (hu : get_url s.urlInputs = some u)
    (hi : (get_video_info u s.extractOracle 0 s.gviAnswers).outcome = .fetched (some i))
    (hq : select_quality s.qualityInputs = some q)
    (hf : select_format s.formatInputs = some f)
    (ha : (pyLower s.anotherAnswer == "y") = false) :
    (runIter s).ending = .breakLoop := by
  simp only [runIter, hu, hi, inner_block_reaches s u q f hq hf, ha]
  simp [ha]

/-- When the extraction fetches info, both playlist-branch lines are
among the iteration prints. -/
theorem runIter_playlist_prints (s : IterScript) (u : String) (i : Info)
    (hu : get_url s.urlInputs = some u)
    (hi : (get_video_info u s.extractOracle 0 s.gviAnswers).outcome = .fetched (some i)) :
    ("Playlist: " ++ i.title.getD "Unknown") ∈ (runIter s).prints ∧
    ("Number of videos: " ++ toString (i.entries.getD []).length) ∈ (runIter s).prints := by
  simp only [runIter, hu, hi, is_playlist_truthy]
  cases hend : (inner_block s u).ending with
  | blocked => simp
  | raised m => simp
  | reachedAnotherPrompt => simp

/-- Any request the inner block passes to `download_content` carries the
constant playlist flag. -/
theorem inner_block_request (s : IterScript) (u : String) (req : Request)
    (h : (inner_block s u).request = some req) :
    req.is_playlist = is_playlist ∧ req.url = u := by
  simp only [inner_block] at h
  cases hq : select_quality s.qualityInputs with
  | none => simp [hq] at h
  | some q =>
    simp only [hq] at h
    cases hf : select_format s.formatInputs with
    | none => simp [hf] at h
    | some f =>
      simp only [hf] at h
      by_cases hc : (pyLower s.confirmAnswer == "y") = true
      · simp only [hc, if_true] at h
        cases hdc : download_content ⟨u, get_output_path s.outputInput, q, f, is_playlist⟩
            s.dlOracle 0 s.dlAnswers with
        | ok res =>
          rw [hdc] at h
          simp only [] at h
          obtain rfl := Option.some.inj h
          exact ⟨rfl, rfl⟩
        | exn m =>
          rw [hdc] at h
          simp only [] at h
          obtain rfl := Option.some.inj h
          exact ⟨rfl, rfl⟩
      · simp [hc] at h

/-- Any request a `main` iteration passes to `download_content` carries
the constant playlist flag. -/
theorem runIter_request (s : IterScript) (req : Request)
    (h : (runIter s).request = some req) :
    req.is_playlist = is_playlist := by
  simp only [runIter] at h
  cases hu : get_url s.urlInputs with
  | none => simp [hu] at h
  | some u =>
    simp only [hu] at h
    cases ho : (get_video_info u s.extractOracle 0 s.gviAnswers).outcome with
    | exited n => simp only [ho] at h; simp at h
    | blockedAtPrompt => simp only [ho] at h; simp at h
    | fetched oi =>
      cases oi with
      | none => simp only [ho] at h; simp at h
      | some i =>
        simp only [ho] at h
        cases hend : (inner_block s u).ending with
        | blocked =>
          simp only [hend] at h
          exact (inner_block_request s u req h).1
        | raised m =>
          simp only [hend] at h
          exact (inner_block_request s u req h).1
        | reachedAnotherPrompt =>
          simp only [hend] at h
          exact (inner_block_request s u req h).1

end Beta

/-- C1 counterexample: the url prompt of test.py get_download_options
returns the entered line unchanged even when it contains neither
youtube.com nor youtu.be, refuting the claim for that front-end. -/
theorem C1_counterexample :
    (TestPy.UserInterface.get_download_options
        ⟨"https://example.com/watch?v=1", [], [], "1", "1", "/home/user",
         none, none⟩).1.url = "https://example.com/watch?v=1" ∧
    Beta.validYoutubeUrl "https://example.com/watch?v=1" = false :=
  ⟨rfl, by decide⟩

/-- C1 amended: only the beta script validates the URL prompt: every url
get_url returns contains a recognized host substring (re-prompting
otherwise), while test.py get_download_options returns the entered url
unvalidated. -/
theorem C1_amended_url_validation :
    (∀ (inputs : List String) (u : String),
       Beta.get_url inputs = some u → Beta.validYoutubeUrl u = true) ∧
    (∀ s : TestPy.UserInterface.UIScript,
       (TestPy.UserInterface.get_download_options s).1.url = s.urlInput) :=
  ⟨Beta.get_url_valid, fun _ => rfl⟩

/-- C1 amended witness at a concrete youtu.be url. -/
theorem C1_amended_url_validation_witness :
    Beta.validYoutubeUrl "https://youtu.be/abc" = true :=
  C1_amended_url_validation.1 ["https://youtu.be/abc"] "https://youtu.be/abc" (by decide)

/-- C2: is_playlist returns the truthy string n without reading input, so
every iteration with fetched info prints the playlist title and entry
count, every request passed to download_content carries the truthy n
flag, and the options built from such a request use the playlist output
template and the playlist-specific keys. -/
theorem C2_playlist_branch_always :
    Beta.is_playlist = "n" ∧
    pyTruthyStr Beta.is_playlist = true ∧
    (∀ (s : Beta.IterScript) (u : String) (i : Beta.Info),
       Beta.get_url s.urlInputs = some u →
       (Beta.get_video_info u s.extractOracle 0 s.gviAnswers).outcome =
         .fetched (some i) →
       ("Playlist: " ++ i.title.getD "Unknown") ∈ (Beta.runIter s).prints ∧
       ("Number of videos: " ++ toString (i.entries.getD []).length) ∈
         (Beta.runIter s).prints) ∧
    (∀ (s : Beta.IterScript) (req : Beta.Request),
       (Beta.runIter s).request = some req →
       req.is_playlist = "n" ∧ pyTruthyStr req.is_playlist = true) ∧
    (∀ url path q f : String,
       (Beta.download_opts ⟨url, path, q, f, Beta.is_playlist⟩).outtmpl =
         Beta.playlistOuttmpl path ∧
       (Beta.download_opts ⟨url, path, q, f, Beta.is_playlist⟩).extract_flat =
         some "in_playlist" ∧
       (Beta.download_opts ⟨url, path, q, f, Beta.is_playlist⟩).playliststart = some 1 ∧
       (Beta.download_opts ⟨url, path, q, f, Beta.is_playlist⟩).playlistrandom =
         some false ∧
       (Beta.download_opts ⟨url, path, q, f, Beta.is_playlist⟩).playlistend =
         some none) := by
  refine ⟨rfl, Beta.is_playlist_truthy, Beta.runIter_playlist_prints, ?_, ?_⟩
  · intro s req h
    have h1 := Beta.runIter_request s req h
    exact ⟨h1, by rw [h1]; exact Beta.is_playlist_truthy⟩
  · intro url path q f
    refine ⟨?_, ?_, ?_, ?_, ?_⟩ <;>
      simp [Beta.download_opts, Beta.is_playlist_truthy]

/-- C2 witness on a concrete iteration script and request. -/
theorem C2_playlist_branch_always_witness :
    (("Playlist: " ++ (Beta.Info.title ⟨some "T", some []⟩).getD "Unknown") ∈
       (Beta.runIter Beta.sampleRunPlaylist).prints ∧
     ("Number of videos: " ++
        toString ((Beta.Info.entries ⟨some "T", some []⟩).getD []).length) ∈
       (Beta.runIter Beta.sampleRunPlaylist).prints) ∧
    (Beta.Request.is_playlist
       ⟨"https://youtube.com/watch?v=b", "downloads", "best", "mp4", "n"⟩ = "n" ∧
     pyTruthyStr (Beta.Request.is_playlist
       ⟨"https://youtube.com/watch?v=b", "downloads", "best", "mp4", "n"⟩) = true) :=
  ⟨C2_playlist_branch_always.2.2.1 Beta.sampleRunPlaylist
     "https://youtube.com/watch?v=b" ⟨some "T", some []⟩ (by decide) (by decide),
   C2_playlist_branch_always.2.2.2.1 Beta.sampleRunPlaylist
     ⟨"https://youtube.com/watch?v=b", "downloads", "best", "mp4", "n"⟩ (by decide)⟩

/-- C3: the quality-to-format-selector translation is a fixed
deterministic mapping: menu choice 2 selects 1080p, and each quality
always yields its single fixed selector string. -/
theorem C3_fixed_format_selector :
    Beta.qualityOfChoice "2" = some "1080p" ∧
    (∀ rest : List String, Beta.select_quality ("2" :: rest) = some "1080p") ∧
    Beta.create_format_selector "1080p" =
      "bestvideo[height<=1080]+bestaudio/best[height<=1080]" ∧
    Beta.create_format_selector "best" = "bestvideo+bestaudio/best" ∧
    Beta.create_format_selector "worst" = "worstvideo+worstaudio/worst" ∧
    Beta.create_format_selector "720p" =
      "bestvideo[height<=720]+bestaudio/best[height<=720]" ∧
    Beta.create_format_selector "480p" =
      "bestvideo[height<=480]+bestaudio/best[height<=480]" :=
  ⟨rfl, fun _ => rfl, by decide, rfl, rfl, by decide, by decide⟩

/-- C4: when the download call raises, both orchestrators print the error
line and return normally; test.py download returns False. -/
theorem C4_download_errors_handled :
    (∀ (r : Beta.Request) (oracle : Nat → PyResult Int) (answers : List String)
       (attempt : Nat) (msg : String),
       oracle attempt = .exn msg →
       (Beta.download_content r oracle attempt answers).raisedMsg = none ∧
       ("An error occurred: " ++ msg) ∈
         Beta.dcPrints (Beta.download_content r oracle attempt answers)) ∧
    (∀ (options : TestPy.DownloadOptions) (msg : String),
       (TestPy.YouTubeDownloader.download options (.exn msg)).result = .ok false ∧
       ("Error during download: " ++ msg) ∈
         (TestPy.YouTubeDownloader.download options (.exn msg)).prints) := by
  constructor
  · intro r oracle answers attempt msg h
    exact ⟨Beta.download_content_no_raise r oracle answers attempt,
           Beta.dc_exn_prints r oracle answers attempt msg h⟩
  · intro options msg
    exact ⟨rfl, by simp [TestPy.YouTubeDownloader.download]⟩

/-- C4 witness on a concrete raising oracle. -/
theorem C4_download_errors_handled_witness :
    ((Beta.download_content ⟨"u", "downloads", "best", "mp4", "n"⟩
        (fun _ => PyResult.exn "boom") 0 []).raisedMsg = none ∧
     ("An error occurred: " ++ "boom") ∈
       Beta.dcPrints (Beta.download_content ⟨"u", "downloads", "best", "mp4", "n"⟩
         (fun _ => PyResult.exn "boom") 0 [])) ∧
    ((TestPy.YouTubeDownloader.download ⟨"u", .video, "best", "p"⟩
        (.exn "boom")).result = .ok false ∧
     ("Error during download: " ++ "boom") ∈
       (TestPy.YouTubeDownloader.download ⟨"u", .video, "best", "p"⟩
         (.exn "boom")).prints) :=
  ⟨C4_download_errors_handled.1 ⟨"u", "downloads", "best", "mp4", "n"⟩
     (fun _ => PyResult.exn "boom") [] 0 "boom" rfl,
   C4_download_errors_handled.2 ⟨"u", .video, "best", "p"⟩ "boom"⟩

/-- C5 counterexample: a beta run whose download raises and whose retry
prompt is answered n swallows the failure: a single attempt is made, the
outcome is abandonment, and main finishes normally with no exit status,
a third outcome the claim excludes. -/
theorem C5_counterexample :
    Beta.main [Beta.sampleRunDeclinedRetry] = ⟨1, .finished⟩ ∧
    (Beta.runIter Beta.sampleRunDeclinedRetry).dlRun.map (fun d => d.outcome) =
      some .abandonedAfterError ∧
    (Beta.runIter Beta.sampleRunDeclinedRetry).dlRun.map (fun d => d.attempts.length) =
      some 1 ∧
    (Beta.runIter Beta.sampleRunDeclinedRetry).dlRun.map (fun d => d.prints) =
      some ["An error occurred: network down"] :=
  ⟨by decide, by decide, by decide, by decide⟩

/-- C5 amended: extraction failures in get_video_info either trigger a
user-confirmed retry or exit with status 1; download failures in the
beta download_content either trigger a user-confirmed retry or are
printed and the function returns normally; download failures in test.py
are printed and download returns False without retry or exit. -/
theorem C5_amended_failure_paths :
    (∀ (url : String) (oracle : Nat → Beta.ExtractRes) (attempt : Nat)
       (msg ans : String) (rest : List String),
       oracle attempt = .downloadError msg →
       ((pyLower ans == "y") = true ∧
         2 ≤ (Beta.get_video_info url oracle attempt (ans :: rest)).attempts.length) ∨
       (Beta.get_video_info url oracle attempt (ans :: rest)).outcome = .exited 1) ∧
    (∀ (url : String) (oracle : Nat → Beta.ExtractRes) (attempt : Nat)
       (answers : List String) (msg : String),
       oracle attempt = .otherError msg →
       (Beta.get_video_info url oracle attempt answers).outcome = .exited 1) ∧
    (∀ (r : Beta.Request) (oracle : Nat → PyResult Int) (attempt : Nat)
       (msg ans : String) (rest : List String),
       oracle attempt = .exn msg →
       ((pyLower ans == "y") = true ∧
         2 ≤ (Beta.dcAttempts
               (Beta.download_content r oracle attempt (ans :: rest))).length) ∨
       ((pyLower ans == "y") = false ∧
         Beta.download_content r oracle attempt (ans :: rest) =
           .ok ⟨[r], ["An error occurred: " ++ msg],
                [(r.output_path, true, true)], .abandonedAfterError⟩)) ∧
    (∀ (options : TestPy.DownloadOptions) (msg : String),
       (TestPy.YouTubeDownloader.download options (.exn msg)).result = .ok false) := by
  refine ⟨?_, ?_, ?_, ?_⟩
  · intro url oracle attempt msg ans rest h
    by_cases hy : (pyLower ans == "y") = true
    · left
      refine ⟨hy, ?_⟩
      rw [Beta.gvi_eq_retry url oracle attempt msg ans rest h hy]
      have h2 := (Beta.gvi_attempts_spec url oracle rest (attempt + 1)).2
      simp only [List.length_cons]
      omega
    · right
      rw [Beta.gvi_eq_exit url oracle attempt msg ans rest h (by simpa using hy)]
  · intro url oracle attempt answers msg h
    rw [Beta.gvi_eq_unexpected url oracle attempt answers msg h]
  · intro r oracle attempt msg ans rest h
    by_cases hy : (pyLower ans == "y") = true
    · left
      refine ⟨hy, ?_⟩
      rw [Beta.dc_eq_retry r oracle attempt msg ans rest h hy]
      obtain ⟨res, hres⟩ := Beta.download_content_ok r oracle rest (attempt + 1)
      rw [hres]
      have h2 := (Beta.dc_attempts_spec r oracle rest (attempt + 1) res hres).2
      simp only [Beta.dcAttempts, List.length_cons]
      omega
    · right
      exact ⟨by simpa using hy,
             Beta.dc_eq_abandoned r oracle attempt msg ans rest h (by simpa using hy)⟩
  · intro options msg
    rfl

/-- C5 amended witness on concrete failing oracles and a declining
answer. -/
theorem C5_amended_failure_paths_witness :
    (((pyLower "n" == "y") = true ∧
       2 ≤ (Beta.get_video_info "u" (fun _ => Beta.ExtractRes.downloadError "x")
             0 ("n" :: [])).attempts.length) ∨
     (Beta.get_video_info "u" (fun _ => Beta.ExtractRes.downloadError "x")
        0 ("n" :: [])).outcome = .exited 1) ∧
    ((Beta.get_video_info "u" (fun _ => Beta.ExtractRes.otherError "x")
        0 []).outcome = .exited 1) ∧
    (((pyLower "n" == "y") = true ∧
       2 ≤ (Beta.dcAttempts (Beta.download_content ⟨"u", "d", "best", "mp4", "n"⟩
             (fun _ => PyResult.exn "x") 0 ("n" :: []))).length) ∨
     ((pyLower "n" == "y") = false ∧
       Beta.download_content ⟨"u", "d", "best", "mp4", "n"⟩
           (fun _ => PyResult.exn "x") 0 ("n" :: []) =
         .ok ⟨[⟨"u", "d", "best", "mp4", "n"⟩], ["An error occurred: " ++ "x"],
              [(Beta.Request.output_path ⟨"u", "d", "best", "mp4", "n"⟩, true, true)],
              .abandonedAfterError⟩)) ∧
    ((TestPy.YouTubeDownloader.download ⟨"u", .video, "best", "p"⟩
        (.exn "x")).result = .ok false) :=
  ⟨C5_amended_failure_paths.1 "u" (fun _ => .downloadError "x") 0 "x" "n" [] rfl,
   C5_amended_failure_paths.2.1 "u" (fun _ => .otherError "x") 0 [] "x" rfl,
   C5_amended_failure_paths.2.2.1 ⟨"u", "d", "best", "mp4", "n"⟩
     (fun _ => .exn "x") 0 "x" "n" [] rfl,
   C5_amended_failure_paths.2.2.2 ⟨"u", .video, "best", "p"⟩ "x"⟩

/-- C6 counterexample: an invalid entry to the beta quality prompt causes
a re-prompt (no value is returned from it, and a later valid entry
decides the result), and an invalid entry to the test.py quality prompt
falls back to the first listed quality, not to the literal best. -/
theorem C6_counterexample :
    Beta.select_quality ["6"] = none ∧
    Beta.select_quality ["6", "5"] = some "worst" ∧
    (TestPy.UserInterface.get_download_options
        ⟨"https://youtube.com/watch?v=a", ["1080p", "720p"], [], "1", "abc",
         "/home/user", none, none⟩).1.quality = "1080p" :=
  ⟨rfl, rfl, by decide⟩

/-- C6 amended: the beta select_quality never falls back: it only returns
menu values and re-prompts on any other entry; the test.py quality
prompt falls back to the first listed quality on a non-numeric or
index-error entry, and uses the literal best only when the quality list
is empty. -/
theorem C6_amended_quality_fallbacks :
    (∀ (inputs : List String) (q : String),
       Beta.select_quality inputs = some q →
       q = "best" ∨ q = "1080p" ∨ q = "720p" ∨ q = "480p" ∨ q = "worst") ∧
    (∀ (choice : String) (rest : List String),
       Beta.qualityOfChoice choice = none →
       Beta.select_quality (choice :: rest) = Beta.select_quality rest) ∧
    (∀ line : String, TestPy.UserInterface.select_quality_from [] line = "best") ∧
    (∀ (q0 : String) (qs : List String) (line : String),
       pyParseInt line = none →
       TestPy.UserInterface.select_quality_from (q0 :: qs) line = q0) ∧
    (∀ (q0 : String) (qs : List String) (line : String) (n : Int),
       pyParseInt line = some n → pyIndex (q0 :: qs) (n - 1) = none →
       TestPy.UserInterface.select_quality_from (q0 :: qs) line = q0) := by
  refine ⟨Beta.select_quality_mem, Beta.select_quality_reprompts, fun _ => rfl, ?_, ?_⟩
  · intro q0 qs line hp
    simp [TestPy.UserInterface.select_quality_from, hp]
  · intro q0 qs line n hp hidx
    simp [TestPy.UserInterface.select_quality_from, hp, hidx]

/-- C6 amended witness on concrete prompt entries. -/
theorem C6_amended_quality_fallbacks_witness :
    ("worst" = "best" ∨ "worst" = "1080p" ∨ "worst" = "720p" ∨ "worst" = "480p" ∨
      "worst" = "worst") ∧
    Beta.select_quality ("6" :: ["5"]) = Beta.select_quality ["5"] ∧
    TestPy.UserInterface.select_quality_from ("720p" :: []) "abc" = "720p" ∧
    TestPy.UserInterface.select_quality_from ("720p" :: []) "9" = "720p" :=
  ⟨C6_amended_quality_fallbacks.1 ["5"] "worst" rfl,
   C6_amended_quality_fallbacks.2.1 "6" ["5"] rfl,
   C6_amended_quality_fallbacks.2.2.2.1 "720p" [] "abc" (by decide),
   C6_amended_quality_fallbacks.2.2.2.2 "720p" [] "9" 9 (by decide) (by decide)⟩

/-- C7: with the prompts of the first iteration succeeding and the
download-another prompt declined, both front-end main loops complete
exactly one iteration and finish, for any remaining scripted
iterations. -/
theorem C7_single_iteration_on_decline :
    (∀ (s : Beta.IterScript) (rest : List Beta.IterScript) (u : String)
       (i : Beta.Info) (q f : String),
       Beta.get_url s.urlInputs = some u →
       (Beta.get_video_info u s.extractOracle 0 s.gviAnswers).outcome =
         .fetched (some i) →
       Beta.select_quality s.qualityInputs = some q →
       Beta.select_format s.formatInputs = some f →
       (pyLower s.anotherAnswer == "y") = false →
       Beta.main (s :: rest) = ⟨1, .finished⟩) ∧
    (∀ (t : TestPy.IterScript) (rest : List TestPy.IterScript),
       (pyLower t.anotherAnswer == "y") = false →
       TestPy.main (t :: rest) = ⟨1, .finished⟩) := by
  constructor
  · intro s rest u i q f hu hi hq hf ha
    have hb := Beta.runIter_break s u i q f hu hi hq hf ha
    simp [Beta.main, hb]
  · intro t rest ha
    simp [TestPy.main, ha]

/-- C7 witness on the concrete sample scripts. -/
theorem C7_single_iteration_on_decline_witness :
    Beta.main (Beta.sampleRunSingle :: []) = ⟨1, .finished⟩ ∧
    TestPy.main (TestPy.sampleRun :: []) = ⟨1, .finished⟩ :=
  ⟨C7_single_iteration_on_decline.1 Beta.sampleRunSingle []
     "https://youtube.com/watch?v=a" ⟨some "T", some []⟩ "1080p" "mp4"
     (by decide) (by decide) (by decide) (by decide) (by decide),
   C7_single_iteration_on_decline.2 TestPy.sampleRun [] (by decide)⟩

/-- C8: every retry re-invokes the operation with exactly the original
arguments: all download attempts of a download_content run use the
original request, and all extraction attempts of a get_video_info run
use the original url. -/
theorem C8_retry_same_request :
    (∀ (r : Beta.Request) (oracle : Nat → PyResult Int) (answers : List String)
       (attempt : Nat) (res : Beta.DCRun),
       Beta.download_content r oracle attempt answers = .ok res →
       res.attempts.all (fun a => a == r) = true) ∧
    (∀ (url : String) (oracle : Nat → Beta.ExtractRes) (answers : List String)
       (attempt : Nat),
       (Beta.get_video_info url oracle attempt answers).attempts.all
         (fun a => a == url) = true) :=
  ⟨fun r oracle answers attempt res h =>
     (Beta.dc_attempts_spec r oracle answers attempt res h).1,
   fun url oracle answers attempt =>
     (Beta.gvi_attempts_spec url oracle answers attempt).1⟩

/-- C8 witness on a concrete completed run. -/
theorem C8_retry_same_request_witness :
    (Beta.DCRun.attempts ⟨[⟨"u", "d", "best", "mp4", "n"⟩],
       ["Download completed successfully!"], [("d", true, true)], .completed⟩).all
      (fun a => a == ⟨"u", "d", "best", "mp4", "n"⟩) = true :=
  C8_retry_same_request.1 ⟨"u", "d", "best", "mp4", "n"⟩ (fun _ => PyResult.ok 0) [] 0
    ⟨[⟨"u", "d", "best", "mp4", "n"⟩], ["Download completed successfully!"],
     [("d", true, true)], .completed⟩ (by decide)

/-- C9: empty input to the beta output-path prompt yields downloads;
download_content records the mkdir of the output path with parents and
exist-ok; test.py uses the working directory, or a sanitized
playlist-titled subdirectory of it, and records its makedirs with
exist-ok. -/
theorem C9_output_directories :
    Beta.get_output_path "" = "downloads" ∧
    (∀ (r : Beta.Request) (oracle : Nat → PyResult Int) (answers : List String)
       (attempt : Nat) (res : Beta.DCRun),
       Beta.download_content r oracle attempt answers = .ok res →
       (r.output_path, true, true) ∈ res.mkdirCalls) ∧
    (∀ (cwd : String) (i : TestPy.YouTubeDownloader.TInfo),
       TestPy.YouTubeDownloader.create_output_path cwd (some i) true none =
         ⟨pathJoin cwd (TestPy.YouTubeDownloader.sanitizeTitle (i.title.getD "playlist")),
          [(pathJoin cwd (TestPy.YouTubeDownloader.sanitizeTitle (i.title.getD "playlist")),
            true)],
          []⟩) ∧
    (∀ (cwd : String) (info : Option TestPy.YouTubeDownloader.TInfo),
       TestPy.YouTubeDownloader.create_output_path cwd info false none =
         ⟨cwd, [(cwd, true)], []⟩) := by
  refine ⟨rfl, Beta.dc_mkdir, ?_, ?_⟩
  · intro cwd i
    rfl
  · intro cwd info
    rfl

/-- C9 witness on a concrete completed run. -/
theorem C9_output_directories_witness :
    (Beta.Request.output_path ⟨"u", "downloads", "best", "mp4", "n"⟩, true, true) ∈
      Beta.DCRun.mkdirCalls ⟨[⟨"u", "downloads", "best", "mp4", "n"⟩],
        ["Download completed successfully!"], [("downloads", true, true)], .completed⟩ :=
  C9_output_directories.2.1 ⟨"u", "downloads", "best", "mp4", "n"⟩
    (fun _ => PyResult.ok 0) [] 0
    ⟨[⟨"u", "downloads", "best", "mp4", "n"⟩], ["Download completed successfully!"],
     [("downloads", true, true)], .completed⟩ (by decide)

/-- C10: with the empty quality list the fallback quality is the literal
best, and both consumers slice it to bes: the video format string embeds
bes in the height bounds and the audio post-processor preferred quality
becomes bes, so best is never passed through intact. -/
theorem C10_best_sliced_to_bes :
    (∀ line : String, TestPy.UserInterface.select_quality_from [] line = "best") ∧
    pyDropLast "best" = "bes" ∧
    TestPy.YouTubeDownloader.get_format_string "best" .video =
      "bestvideo[height<=bes]+bestaudio/best[height<=bes]/best" ∧
    (∀ url path : String,
       (TestPy.YouTubeDownloader.get_download_options
           ⟨url, .video, "best", path⟩).format =
         "bestvideo[height<=bes]+bestaudio/best[height<=bes]/best") ∧
    (∀ url path : String,
       (TestPy.YouTubeDownloader.get_download_options
           ⟨url, .audio, "best", path⟩).postprocessors =
         some [⟨"FFmpegExtractAudio", "mp3", "bes"⟩]) := by
  refine ⟨fun _ => rfl, by decide, by decide, ?_, ?_⟩
  · intro url path
    rfl
  · intro url path
    rfl
